import Mathlib

/-!
Verification of the tunnel lifecycle and channel-bridging subsystem of
`htmx-ssh-games` (files `src/entrypoint.rs` and `src/ssh.rs`), via a
shallow embedding in Lean 4.

Durations are modelled in whole seconds as `Nat`; byte buffers as
`List Nat`; errors carry no payload beyond their kind.
-/

namespace HtmxSshGames

/- ## Backoff iterator (entrypoint.rs, lines 52 and 59-66)

`ssh_entrypoint` builds the reconnection schedule with
`iter::from_fn(move || { reconnect_attempt += 1;
  if reconnect_attempt <= 5 { Some(Duration::from_secs(2 * reconnect_attempt)) }
  else { None } })`
where `reconnect_attempt` starts at 0 for each outer-loop cycle.  We model
the closure as a state-passing step function on the captured counter. -/

/-- One call of the `iter::from_fn` closure: increments the captured
`reconnect_attempt` counter and yields `2 * reconnect_attempt` seconds
while the counter is at most 5. -/
def backoffNext (reconnect_attempt : Nat) : Option Nat × Nat :=
  let n := reconnect_attempt + 1
  (if n ≤ 5 then some (2 * n) else none, n)

/-- Counter state after `k` calls of the closure, starting from the
initial `reconnect_attempt = 0`. -/
def backoffState : Nat → Nat
  | 0 => 0
  | k + 1 => (backoffNext (backoffState k)).2

/-- Value produced by the `n`-th call (1-indexed) of the backoff closure. -/
def backoffYield (n : Nat) : Option Nat :=
  (backoffNext (backoffState (n - 1))).1

/-- Unfold the backoff iterator into the list of durations it yields,
bounded by `fuel` calls. -/
def iterUnfold (fuel : Nat) (s : Nat) : List Nat :=
  match fuel with
  | 0 => []
  | fuel + 1 =>
    match backoffNext s with
    | (some d, s2) => d :: iterUnfold fuel s2
    | (none, _) => []

/-- The full schedule handed to `TcpForwardSession::connect` by one
outer-loop cycle: everything the fresh iterator yields. -/
def fullSchedule : List Nat := iterUnfold 6 0

/- ## TcpForwardSession::connect (ssh.rs, lines 37-76)

The connect loop repeatedly calls `client::connect`; on success it calls
`authenticate_publickey` and either breaks out of the loop (`Ok(true)`),
returns an authentication-failed error (`Ok(false)`), or propagates the
authentication call's own error (`Err` via `?`).  On a transport failure
it asks the timer iterator for the next delay: if the iterator is
exhausted it returns a gave-up error, otherwise it sleeps for the yielded
duration and retries.  We model the environment's behaviour at each
attempt as an `AttemptOutcome` and run the loop over a finite trace of
outcomes, with the timer iterator embodied by the list of durations it
has yet to yield. -/

/-- Outcome of one iteration of the connect loop: what `client::connect`
and (when the transport succeeds) `authenticate_publickey` return. -/
inductive AttemptOutcome
  | transportErr
  | authApiErr
  | authRejected
  | authOk
deriving DecidableEq, Repr

/-- How `TcpForwardSession::connect` resolves. -/
inductive ConnectResult
  | connected
  | authRejectedErr
  | authApiError
  | gaveUpErr
deriving DecidableEq, Repr

/-- Observable record of one `connect` call: its result, the number of
`client::connect` attempts made, the sleeps performed in order, and the
number of `timer_iterator.next()` calls. -/
structure ConnectTrace where
  result : ConnectResult
  attempts : Nat
  delays : List Nat
  consults : Nat
deriving DecidableEq, Repr

/-- The `loop` inside `TcpForwardSession::connect`, accumulating attempts,
sleeps (in reverse) and iterator consultations.  Returns `none` when the
outcome trace ends before the loop resolves (the real loop would simply
keep waiting on the environment). -/
def connectLoop : List AttemptOutcome → List Nat → Nat → List Nat → Nat →
    Option ConnectTrace
  | [], _, _, _, _ => none
  | o :: rest, timer, attempts, delays, consults =>
    match o with
    | .authOk => some ⟨.connected, attempts + 1, delays.reverse, consults⟩
    | .authRejected => some ⟨.authRejectedErr, attempts + 1, delays.reverse, consults⟩
    | .authApiErr => some ⟨.authApiError, attempts + 1, delays.reverse, consults⟩
    | .transportErr =>
      match timer with
      | [] => some ⟨.gaveUpErr, attempts + 1, delays.reverse, consults + 1⟩
      | d :: timer2 => connectLoop rest timer2 (attempts + 1) (d :: delays) (consults + 1)

/-- `TcpForwardSession::connect`, run against an environment trace and a
timer iterator (given by the list of durations it will yield). -/
def connect (trace : List AttemptOutcome) (timer : List Nat) : Option ConnectTrace :=
  connectLoop trace timer 0 [] 0

/- ## TcpForwardSession::start_forwarding (ssh.rs, lines 80-150)

After the `tcpip_forward` request and the auxiliary session channel are
set up, the function loops on `channel.wait()`.  `Data` is copied to
stdout, `ExtendedData { ext: 1 }` to stderr, `Success` is ignored,
`Close` breaks with code 0, `ExitStatus` breaks with the remote exit
code, any other message returns an unknown-message error, and a `wait()`
that yields `None` returns an unexpected-end error.  We model only this
message loop: the trace of messages the channel delivers before closing
is the input (an exhausted trace models `wait()` returning `None`), and
stdout/stderr are pure accumulators. -/

/-- A message delivered on the auxiliary session channel.  `other` stands
for every `ChannelMsg` constructor not matched by a specific arm of the
loop (note that `ExtendedData` with `ext ≠ 1` also falls through to the
catch-all arm). -/
inductive SessionMsg
  | data (d : List Nat)
  | extendedData (d : List Nat) (ext : Nat)
  | success
  | close
  | exitStatus (code : Nat)
  | other
deriving DecidableEq, Repr

/-- Local standard output and error accumulated by the loop. -/
structure SessionOutput where
  toStdout : List Nat
  toStderr : List Nat
deriving DecidableEq, Repr

/-- How the `start_forwarding` message loop resolves. -/
inductive ForwardResult
  | ok (code : Nat)
  | unexpectedEnd
  | unknownMsg
deriving DecidableEq, Repr

/-- The message loop of `start_forwarding` over the channel's message
trace. -/
def forwardLoop : List SessionMsg → SessionOutput → ForwardResult × SessionOutput
  | [], out => (.unexpectedEnd, out)
  | m :: rest, out =>
    match m with
    | .data d => forwardLoop rest { out with toStdout := out.toStdout ++ d }
    | .extendedData d ext =>
      if ext = 1 then forwardLoop rest { out with toStderr := out.toStderr ++ d }
      else (.unknownMsg, out)
    | .success => forwardLoop rest out
    | .close => (.ok 0, out)
    | .exitStatus code => (.ok code, out)
    | .other => (.unknownMsg, out)

/-- `start_forwarding`, reduced to its message loop on a fresh output
state. -/
def start_forwarding (msgs : List SessionMsg) : ForwardResult × SessionOutput :=
  forwardLoop msgs ⟨[], []⟩

/-- A message on which the loop continues waiting instead of resolving:
`Data`, `ExtendedData` with `ext = 1`, or `Success`. -/
def Progressing : SessionMsg → Prop
  | .data _ => True
  | .extendedData _ ext => ext = 1
  | .success => True
  | _ => False

instance : DecidablePred Progressing := by
  intro m
  cases m <;> simp [Progressing] <;> infer_instance

/- ## ssh_entrypoint outer loop (entrypoint.rs, lines 51-82)

After the secret key is loaded and decoded, the function loops: it builds
a fresh backoff iterator (`reconnect_attempt` is declared inside the
loop, initialised to 0), calls `TcpForwardSession::connect` and
propagates any connect error with `?` (returning from `ssh_entrypoint`),
then runs `start_forwarding` (its `Err` is only logged), then
`session.close()` (its `Err` is only logged), and restarts.  One loop
iteration is driven by a `CycleInput` describing the environment's
behaviour during that cycle. -/

/-- Environment behaviour during one outer-loop cycle: the trace of
connection-attempt outcomes, the channel messages seen by
`start_forwarding` if the cycle gets that far, and whether the graceful
disconnect succeeds. -/
structure CycleInput where
  connectTrace : List AttemptOutcome
  sessionMsgs : List SessionMsg
  closeOk : Bool
deriving DecidableEq, Repr

/-- What one iteration of the `loop` in `ssh_entrypoint` does to control
flow: return from `ssh_entrypoint` with an error, or fall through to the
next iteration. -/
inductive StepOutcome
  | exitErr
  | nextCycle
deriving DecidableEq, Repr

/-- One iteration of `ssh_entrypoint`'s loop.  `none` when the connect
trace ends unresolved (the real loop would still be awaiting the
network). -/
def entrypointCycle (inp : CycleInput) : Option StepOutcome :=
  match connect inp.connectTrace fullSchedule with
  | none => none
  | some t =>
    if t.result = .connected then
      some .nextCycle
    else
      some .exitErr

/-- The outer loop run over a list of per-cycle environment behaviours,
recording each cycle's `connect` observation.  A cycle whose connect
fails ends the run (the `?` returns from `ssh_entrypoint`); a cycle whose
trace is unresolved also ends the recording. -/
def cycleTraces : List CycleInput → List ConnectTrace
  | [] => []
  | c :: cs =>
    match connect c.connectTrace fullSchedule with
    | none => []
    | some t =>
      if t.result = .connected then t :: cycleTraces cs else [t]

/- ## Client::server_channel_open_forwarded_tcpip (ssh.rs, lines 185-225)

The handler builds
`SocketAddr::new(originator_address.parse().unwrap(), originator_port.try_into().unwrap())`:
a parse failure or a `u32 -> u16` conversion failure panics via
`unwrap`.  Otherwise it looks up the global router (an uninitialised
router is an `Err` return) and spawns the bridge task.  IP-address
parsing belongs to the standard library, so the model takes its result
as an input; the `u32 -> u16` conversion is modelled exactly. -/

/-- A parsed IP address, abstract. -/
structure IpAddr where
  repr : List Nat
deriving DecidableEq, Repr

/-- `u32 -> u16` conversion via `try_into`: succeeds exactly when the
value fits in 16 bits. -/
def tryIntoU16 (p : Nat) : Option Nat :=
  if p ≤ 65535 then some p else none

/-- How the forwarded-tcpip open handler resolves. -/
inductive HandlerOutcome
  | panicked
  | errRouter
  | bridged (addr : IpAddr) (port : Nat)
deriving DecidableEq, Repr

/-- `server_channel_open_forwarded_tcpip`, reduced to the address
construction and router lookup that decide its control flow.
`parsedOriginator` is the result of `originator_address.parse()`. -/
def server_channel_open_forwarded_tcpip (parsedOriginator : Option IpAddr)
    (originator_port : Nat) (routerInitialized : Bool) : HandlerOutcome :=
  match parsedOriginator with
  | none => .panicked
  | some a =>
    match tryIntoU16 originator_port with
    | none => .panicked
    | some p => if routerInitialized then .bridged a p else .errRouter

/- ## Client::check_server_key (ssh.rs, lines 169-174) -/

/-- Server public key, abstract: only its identity matters here. -/
structure PublicKey where
  bytes : List Nat
deriving DecidableEq, Repr

/-- `check_server_key`: the handler body is literally `Ok(true)` (the
source marks the parameter `#[allow(unused_variables)]` likewise). -/
def check_server_key (server_public_key : PublicKey) : Except String Bool :=
  Except.ok true

/- ## Theorems -/

/-- Running the connect loop through `k` consecutive transport failures
consumes `k` timer entries, sleeping for each, and makes `k` further
attempts, provided the timer still holds at least `k` entries. -/
lemma connectLoop_replicate_transportErr :
    ∀ (k : Nat) (rest : List AttemptOutcome) (timer : List Nat) (attempts : Nat)
      (delays : List Nat) (consults : Nat), k ≤ timer.length →
      connectLoop (List.replicate k .transportErr ++ rest) timer attempts delays consults
        = connectLoop rest (timer.drop k) (attempts + k)
            ((timer.take k).reverse ++ delays) (consults + k) := by
  intro k
  induction k with
  | zero => intro rest timer attempts delays consults _; simp
  | succ k ih =>
    intro rest timer attempts delays consults hk
    cases timer with
    | nil => simp at hk
    | cons d timer2 =>
      have hk2 : k ≤ timer2.length := by simpa using Nat.le_of_succ_le_succ hk
      have step :
          connectLoop (List.replicate (k + 1) AttemptOutcome.transportErr ++ rest)
              (d :: timer2) attempts delays consults
            = connectLoop (List.replicate k AttemptOutcome.transportErr ++ rest)
              timer2 (attempts + 1) (d :: delays) (consults + 1) := by
        simp [List.replicate_succ, connectLoop]
      rw [step, ih rest timer2 (attempts + 1) (d :: delays) (consults + 1) hk2]
      simp [List.take_succ_cons, List.drop_succ_cons]
      have e1 : attempts + 1 + k = attempts + (k + 1) := by omega
      have e2 : consults + 1 + k = consults + (k + 1) := by omega
      rw [e1, e2]

/-- C2: for every attempt number n with 1 <= n <= 5, the n-th value
yielded by the backoff iterator handed to `TcpForwardSession::connect`
equals a duration of 2*n seconds; for every n > 5 the iterator yields no
value; so the schedule has length exactly 5. -/
theorem backoff_schedule_spec :
    (∀ n : Nat, 1 ≤ n → n ≤ 5 → backoffYield n = some (2 * n)) ∧
    (∀ n : Nat, 5 < n → backoffYield n = none) ∧
    fullSchedule.length = 5 := by
  have hstate : ∀ k : Nat, backoffState k = k := by
    intro k
    induction k with
    | zero => rfl
    | succ k ih => simp [backoffState, backoffNext, ih]
  refine ⟨?_, ?_, by decide⟩
  · intro n h1 h5
    have : n - 1 + 1 = n := Nat.succ_pred_eq_of_pos h1
    simp [backoffYield, hstate, backoffNext, this, h5]
  · intro n h5
    have h1 : 1 ≤ n := le_trans (by norm_num) (le_of_lt h5)
    have : n - 1 + 1 = n := Nat.succ_pred_eq_of_pos h1
    simp [backoffYield, hstate, backoffNext, this]
    omega

/-- Witness for C2 at n = 3 and n = 7. -/
theorem backoff_schedule_spec_witness :
    backoffYield 3 = some (2 * 3) ∧ backoffYield 7 = none :=
  ⟨backoff_schedule_spec.1 3 (by decide) (by decide),
   backoff_schedule_spec.2.1 7 (by decide)⟩

/-- C3: for every k <= 5, exactly k consecutive transport failures
followed by one successful transport connection make `connect` observe
exactly the first k schedule entries as delays and then proceed to
authentication; any run of more than 5 consecutive transport failures
makes `connect` return an error after exactly the 5 scheduled delays (the
schedule holds no 6th entry, so no 6th delay occurs). -/
theorem connect_transport_retry_schedule :
    (∀ k : Nat, k ≤ 5 →
      connect (List.replicate k AttemptOutcome.transportErr ++ [AttemptOutcome.authOk])
          fullSchedule
        = some ⟨.connected, k + 1, fullSchedule.take k, k⟩) ∧
    (∀ rest : List AttemptOutcome,
      connect (List.replicate 6 AttemptOutcome.transportErr ++ rest) fullSchedule
        = some ⟨.gaveUpErr, 6, fullSchedule, 6⟩) := by
  have hlen : fullSchedule.length = 5 := by decide
  constructor
  · intro k hk
    have hk2 : k ≤ fullSchedule.length := by rw [hlen]; exact hk
    unfold connect
    rw [connectLoop_replicate_transportErr k _ fullSchedule 0 [] 0 hk2]
    simp [connectLoop]
  · intro rest
    have h6 : List.replicate 6 AttemptOutcome.transportErr ++ rest
        = List.replicate 5 AttemptOutcome.transportErr
          ++ (AttemptOutcome.transportErr :: rest) := by
      rw [show (6 : Nat) = 5 + 1 from rfl, List.replicate_add]
      simp
    unfold connect
    rw [h6, connectLoop_replicate_transportErr 5 _ fullSchedule 0 [] 0 (by rw [hlen])]
    have hdrop : fullSchedule.drop 5 = [] := by decide
    have htake : fullSchedule.take 5 = fullSchedule := by decide
    rw [hdrop, htake]
    simp [connectLoop]

/-- Witness for C3 at k = 2 and at a run of 6 transport failures. -/
theorem connect_transport_retry_schedule_witness :
    connect [AttemptOutcome.transportErr, AttemptOutcome.transportErr,
        AttemptOutcome.authOk] fullSchedule
      = some ⟨.connected, 3, fullSchedule.take 2, 2⟩ ∧
    connect (List.replicate 6 AttemptOutcome.transportErr) fullSchedule
      = some ⟨.gaveUpErr, 6, fullSchedule, 6⟩ :=
  ⟨connect_transport_retry_schedule.1 2 (by decide),
   by
    have h := connect_transport_retry_schedule.2 []
    simpa using h⟩

/-- C4: whenever the transport connection succeeds but public-key
authentication is rejected, `connect` returns an authentication error at
once: the iterator is not consulted again, no further delay is slept, and
no further connection attempt is made within that call, whatever the
environment would have offered next. -/
theorem connect_auth_rejection_immediate :
    ∀ (m : Nat) (rest : List AttemptOutcome), m ≤ 5 →
      connect (List.replicate m AttemptOutcome.transportErr
          ++ AttemptOutcome.authRejected :: rest) fullSchedule
        = some ⟨.authRejectedErr, m + 1, fullSchedule.take m, m⟩ := by
  intro m rest hm
  have hm2 : m ≤ fullSchedule.length := by
    have hlen : fullSchedule.length = 5 := by decide
    rw [hlen]; exact hm
  unfold connect
  rw [connectLoop_replicate_transportErr m _ fullSchedule 0 [] 0 hm2]
  simp [connectLoop]

/-- Witness for C4: immediate rejection on the very first attempt, with
more environment behaviour available that is never used. -/
theorem connect_auth_rejection_immediate_witness :
    connect [AttemptOutcome.authRejected, AttemptOutcome.authOk] fullSchedule
      = some ⟨.authRejectedErr, 1, [], 0⟩ := by
  have h := connect_auth_rejection_immediate 0 [AttemptOutcome.authOk] (by decide)
  simpa using h

/-- On messages the loop merely services (data to stdout, extended data
with ext = 1 to stderr, success), `forwardLoop` keeps waiting: its
resolution is decided by whatever follows. -/
lemma forwardLoop_progressing :
    ∀ (p : List SessionMsg) (out : SessionOutput), (∀ m ∈ p, Progressing m) →
      ∃ out2, ∀ q, forwardLoop (p ++ q) out = forwardLoop q out2 := by
  intro p
  induction p with
  | nil => intro out _; exact ⟨out, fun q => rfl⟩
  | cons m p ih =>
    intro out hp
    have hm : Progressing m := hp m (by simp)
    have hp2 : ∀ m2 ∈ p, Progressing m2 := fun m2 h2 => hp m2 (by simp [h2])
    cases m with
    | data d =>
      obtain ⟨out2, h⟩ := ih { out with toStdout := out.toStdout ++ d } hp2
      exact ⟨out2, fun q => by simpa [forwardLoop] using h q⟩
    | extendedData d ext =>
      have hext : ext = 1 := hm
      subst hext
      obtain ⟨out2, h⟩ := ih { out with toStderr := out.toStderr ++ d } hp2
      exact ⟨out2, fun q => by simpa [forwardLoop] using h q⟩
    | success =>
      obtain ⟨out2, h⟩ := ih out hp2
      exact ⟨out2, fun q => by simpa [forwardLoop] using h q⟩
    | close => exact absurd hm (by simp [Progressing])
    | exitStatus code => exact absurd hm (by simp [Progressing])
    | other => exact absurd hm (by simp [Progressing])

/-- C5: after any run of serviced messages, the `start_forwarding` loop
completes with the auxiliary channel's exit code when an exit-status
message arrives, errors when the channel yields no further message, and
errors when an unrecognized protocol message arrives (either the
catch-all arm or extended data with ext different from 1). -/
theorem start_forwarding_completion :
    ∀ (p : List SessionMsg) (out : SessionOutput), (∀ m ∈ p, Progressing m) →
      (∀ (c : Nat) (rest : List SessionMsg),
        (forwardLoop (p ++ SessionMsg.exitStatus c :: rest) out).1 = .ok c) ∧
      (forwardLoop p out).1 = .unexpectedEnd ∧
      (∀ rest : List SessionMsg,
        (forwardLoop (p ++ SessionMsg.other :: rest) out).1 = .unknownMsg) ∧
      (∀ (d : List Nat) (ext : Nat) (rest : List SessionMsg), ext ≠ 1 →
        (forwardLoop (p ++ SessionMsg.extendedData d ext :: rest) out).1
          = .unknownMsg) := by
  intro p out hp
  obtain ⟨out2, h⟩ := forwardLoop_progressing p out hp
  refine ⟨fun c rest => ?_, ?_, fun rest => ?_, fun d ext rest hext => ?_⟩
  · rw [h]; simp [forwardLoop]
  · have h0 := h []
    rw [List.append_nil] at h0
    rw [h0]; simp [forwardLoop]
  · rw [h]; simp [forwardLoop]
  · rw [h]; simp [forwardLoop, hext]

/-- Witness for C5 at a two-message serviced prefix, exit code 3, an
abrupt end, an unrecognized message, and extended data with ext = 2. -/
theorem start_forwarding_completion_witness :
    (forwardLoop ([SessionMsg.data [7], SessionMsg.success]
        ++ SessionMsg.exitStatus 3 :: []) ⟨[], []⟩).1 = .ok 3 ∧
    (forwardLoop [SessionMsg.data [7], SessionMsg.success] ⟨[], []⟩).1
      = .unexpectedEnd ∧
    (forwardLoop ([SessionMsg.data [7], SessionMsg.success]
        ++ SessionMsg.other :: []) ⟨[], []⟩).1 = .unknownMsg ∧
    (forwardLoop ([SessionMsg.data [7], SessionMsg.success]
        ++ SessionMsg.extendedData [9] 2 :: []) ⟨[], []⟩).1 = .unknownMsg := by
  have h := start_forwarding_completion [SessionMsg.data [7], SessionMsg.success]
    ⟨[], []⟩ (by decide)
  exact ⟨h.1 3 [], h.2.1, h.2.2.1 [], h.2.2.2 [9] 2 [] (by decide)⟩

/-- C1 counterexample: a cycle whose connect fails through public-key
rejection makes `ssh_entrypoint` return the error (the `?` on the
`connect` call), not begin a new connect cycle. -/
theorem entrypoint_connect_failure_ce :
    entrypointCycle ⟨[AttemptOutcome.authRejected], [], true⟩ = some .exitErr ∧
    entrypointCycle ⟨[AttemptOutcome.authRejected], [], true⟩ ≠ some .nextCycle := by
  decide

/-- C1 amended: whenever a connect cycle fails — authentication rejected,
the authentication call itself erroring, or the backoff schedule
exhausted — `ssh_entrypoint` returns that error and the process
terminates; only a cycle whose connect succeeds falls through to the next
connect cycle. -/
theorem entrypoint_connect_failure_returns :
    ∀ (inp : CycleInput) (t : ConnectTrace),
      connect inp.connectTrace fullSchedule = some t →
      (t.result ≠ .connected → entrypointCycle inp = some .exitErr) ∧
      (t.result = .connected → entrypointCycle inp = some .nextCycle) := by
  intro inp t h
  constructor
  · intro hne
    simp [entrypointCycle, h, hne]
  · intro he
    simp [entrypointCycle, h, he]

/-- Witness for the amended C1: an exhausted backoff schedule ends the
process; a successful connect reaches the next cycle. -/
theorem entrypoint_connect_failure_returns_witness :
    entrypointCycle ⟨List.replicate 6 AttemptOutcome.transportErr, [], true⟩
      = some .exitErr ∧
    entrypointCycle ⟨[AttemptOutcome.authOk], [], true⟩ = some .nextCycle :=
  ⟨(entrypoint_connect_failure_returns
      ⟨List.replicate 6 AttemptOutcome.transportErr, [], true⟩
      ⟨.gaveUpErr, 6, fullSchedule, 6⟩ (by decide)).1 (by decide),
   (entrypoint_connect_failure_returns ⟨[AttemptOutcome.authOk], [], true⟩
      ⟨.connected, 1, [], 0⟩ (by decide)).2 rfl⟩

/-- C6: every outer-loop cycle that runs performs its `connect` against
the full fresh 5-entry schedule — the observation recorded for cycle i
is exactly `connect` of cycle i's own environment trace against
`fullSchedule`, unaffected by delays consumed or rejections suffered in
any earlier cycle. -/
theorem fresh_schedule_each_cycle :
    ∀ (cs : List CycleInput) (i : Nat) (ci : CycleInput) (t : ConnectTrace),
      cs[i]? = some ci → (cycleTraces cs)[i]? = some t →
      connect ci.connectTrace fullSchedule = some t ∧
        fullSchedule.length = 5 := by
  intro cs
  induction cs with
  | nil => intro i ci t hci _; simp at hci
  | cons c cs ih =>
    intro i ci t hci ht
    cases hconn : connect c.connectTrace fullSchedule with
    | none => rw [cycleTraces, hconn] at ht; simp at ht
    | some t0 =>
      by_cases hres : t0.result = .connected
      · rw [cycleTraces, hconn] at ht
        simp only [hres, if_true] at ht
        cases i with
        | zero =>
          simp at hci ht
          subst hci; subst ht
          exact ⟨hconn, by decide⟩
        | succ i =>
          simp at hci ht
          exact ih i ci t hci ht
      · rw [cycleTraces, hconn] at ht
        simp only [hres, if_false] at ht
        cases i with
        | zero =>
          simp at hci ht
          subst hci; subst ht
          exact ⟨hconn, by decide⟩
        | succ i => simp at ht

/-- Witness for C6: second of two cycles, after a first cycle that
consumed three schedule entries, still connects against the full
schedule. -/
theorem fresh_schedule_each_cycle_witness :
    connect [AttemptOutcome.authOk] fullSchedule = some ⟨.connected, 1, [], 0⟩ ∧
      fullSchedule.length = 5 :=
  fresh_schedule_each_cycle
    [⟨List.replicate 3 AttemptOutcome.transportErr ++ [AttemptOutcome.authOk], [], true⟩,
     ⟨[AttemptOutcome.authOk], [], true⟩]
    1 ⟨[AttemptOutcome.authOk], [], true⟩ ⟨.connected, 1, [], 0⟩
    (by decide) (by decide)

/-- C7: when connect succeeded, a failing graceful disconnect (`closeOk =
false`, the `Err` branch of `if let Err(e) = session.close().await`) is
only logged: the cycle still falls through to the next connect cycle,
whatever the forwarding session delivered. -/
theorem close_failure_cycle_continues :
    ∀ (ct : List AttemptOutcome) (msgs : List SessionMsg) (t : ConnectTrace),
      connect ct fullSchedule = some t → t.result = .connected →
      entrypointCycle ⟨ct, msgs, false⟩ = some .nextCycle := by
  intro ct msgs t h hres
  simp [entrypointCycle, h, hres]

/-- Witness for C7: a failing disconnect after a session that ended with
an unknown message still reaches the next cycle. -/
theorem close_failure_cycle_continues_witness :
    entrypointCycle ⟨[AttemptOutcome.authOk], [SessionMsg.other], false⟩
      = some .nextCycle :=
  close_failure_cycle_continues [AttemptOutcome.authOk] [SessionMsg.other]
    ⟨.connected, 1, [], 0⟩ (by decide) rfl

/-- C10: a forwarded-tcpip open whose originator address does not parse
as an IP address, or whose originator port exceeds 65535, makes the
handler panic through `unwrap` instead of returning an error. -/
theorem forwarded_open_invalid_originator_panics :
    ∀ (parsedOriginator : Option IpAddr) (originator_port : Nat)
      (routerInitialized : Bool),
      parsedOriginator = none ∨ 65535 < originator_port →
      server_channel_open_forwarded_tcpip parsedOriginator originator_port
        routerInitialized = .panicked := by
  intro pa p ri h
  rcases h with h | h
  · subst h; rfl
  · cases pa with
    | none => rfl
    | some a =>
      simp [server_channel_open_forwarded_tcpip, tryIntoU16, Nat.not_le.mpr h]

/-- Witness for C10: an in-range address with port 70000 panics. -/
theorem forwarded_open_invalid_originator_panics_witness :
    server_channel_open_forwarded_tcpip (some ⟨[127, 0, 0, 1]⟩) 70000 true
      = .panicked :=
  forwarded_open_invalid_originator_panics (some ⟨[127, 0, 0, 1]⟩) 70000 true
    (Or.inr (by decide))

/-- C8: for every server public key presented during connection, the
client's `check_server_key` callback returns true: no key is ever
rejected. -/
theorem check_server_key_accepts_all (k : PublicKey) :
    check_server_key k = Except.ok true := rfl

end HtmxSshGames
